import Mathlib

/-!
Verification of the duo-list activity board core (src/Duo-list-App.py).

The development shallowly embeds the data-handling core of the Streamlit app:

* `loadData` embeds `load_data` (fetch, tabulate, column migration, forced
  canonical columns, falsy-`Category` row drop);
* `tabFilter` embeds the category/status filter and the `isin` attribute
  filters of `render_tab`;
* `reconcile` embeds the `subset.equals(edited_df)` check followed by
  `df.update(edited_df)`;
* `pickRandom` embeds `subset.sample(1).iloc[0]`, with the random draw
  modelled as an oracle index;
* `provisionTab` embeds `create_google_sheet_tab`;
* `addToList` embeds the "Add to List" sidebar handler.

Tables are modelled as a list of column labels plus rows of cells, where a
cell is `Option Json` and `none` stands for pandas `NaN` (the value a row
gets in a column whose key the row's source object lacked).
-/

namespace DuoList

/-- JSON values as parsed from the remote store or the webhook response. -/
inductive Json where
  | str (s : String)
  | num (n : Int)
  | bool (b : Bool)
  | null
  | arr (elems : List Json)
  | obj (fields : List (String × Json))
deriving Repr

mutual

/-- Decidable equality on `Json`, written by hand because the automatic
deriving handler does not support this nested inductive type. -/
def jsonDecEq : (a b : Json) → Decidable (a = b)
  | .str a, .str b =>
    if h : a = b then .isTrue (by rw [h]) else .isFalse (fun hh => h (by cases hh; rfl))
  | .num a, .num b =>
    if h : a = b then .isTrue (by rw [h]) else .isFalse (fun hh => h (by cases hh; rfl))
  | .bool a, .bool b =>
    if h : a = b then .isTrue (by rw [h]) else .isFalse (fun hh => h (by cases hh; rfl))
  | .null, .null => .isTrue rfl
  | .arr a, .arr b =>
    match jsonDecEqL a b with
    | .isTrue h => .isTrue (by rw [h])
    | .isFalse h => .isFalse (fun hh => h (by cases hh; rfl))
  | .obj a, .obj b =>
    match jsonDecEqO a b with
    | .isTrue h => .isTrue (by rw [h])
    | .isFalse h => .isFalse (fun hh => h (by cases hh; rfl))
  | .str _, .num _ => .isFalse (fun h => Json.noConfusion h)
  | .str _, .bool _ => .isFalse (fun h => Json.noConfusion h)
  | .str _, .null => .isFalse (fun h => Json.noConfusion h)
  | .str _, .arr _ => .isFalse (fun h => Json.noConfusion h)
  | .str _, .obj _ => .isFalse (fun h => Json.noConfusion h)
  | .num _, .str _ => .isFalse (fun h => Json.noConfusion h)
  | .num _, .bool _ => .isFalse (fun h => Json.noConfusion h)
  | .num _, .null => .isFalse (fun h => Json.noConfusion h)
  | .num _, .arr _ => .isFalse (fun h => Json.noConfusion h)
  | .num _, .obj _ => .isFalse (fun h => Json.noConfusion h)
  | .bool _, .str _ => .isFalse (fun h => Json.noConfusion h)
  | .bool _, .num _ => .isFalse (fun h => Json.noConfusion h)
  | .bool _, .null => .isFalse (fun h => Json.noConfusion h)
  | .bool _, .arr _ => .isFalse (fun h => Json.noConfusion h)
  | .bool _, .obj _ => .isFalse (fun h => Json.noConfusion h)
  | .null, .str _ => .isFalse (fun h => Json.noConfusion h)
  | .null, .num _ => .isFalse (fun h => Json.noConfusion h)
  | .null, .bool _ => .isFalse (fun h => Json.noConfusion h)
  | .null, .arr _ => .isFalse (fun h => Json.noConfusion h)
  | .null, .obj _ => .isFalse (fun h => Json.noConfusion h)
  | .arr _, .str _ => .isFalse (fun h => Json.noConfusion h)
  | .arr _, .num _ => .isFalse (fun h => Json.noConfusion h)
  | .arr _, .bool _ => .isFalse (fun h => Json.noConfusion h)
  | .arr _, .null => .isFalse (fun h => Json.noConfusion h)
  | .arr _, .obj _ => .isFalse (fun h => Json.noConfusion h)
  | .obj _, .str _ => .isFalse (fun h => Json.noConfusion h)
  | .obj _, .num _ => .isFalse (fun h => Json.noConfusion h)
  | .obj _, .bool _ => .isFalse (fun h => Json.noConfusion h)
  | .obj _, .null => .isFalse (fun h => Json.noConfusion h)
  | .obj _, .arr _ => .isFalse (fun h => Json.noConfusion h)

/-- Decidable equality on lists of `Json` values. -/
def jsonDecEqL : (a b : List Json) → Decidable (a = b)
  | [], [] => .isTrue rfl
  | [], _ :: _ => .isFalse (fun h => List.noConfusion h)
  | _ :: _, [] => .isFalse (fun h => List.noConfusion h)
  | x :: xs, y :: ys =>
    match jsonDecEq x y, jsonDecEqL xs ys with
    | .isTrue h1, .isTrue h2 => .isTrue (by rw [h1, h2])
    | .isFalse h1, _ => .isFalse (fun hh => h1 (by cases hh; rfl))
    | _, .isFalse h2 => .isFalse (fun hh => h2 (by cases hh; rfl))

/-- Decidable equality on association lists of `Json` values. -/
def jsonDecEqO : (a b : List (String × Json)) → Decidable (a = b)
  | [], [] => .isTrue rfl
  | [], _ :: _ => .isFalse (fun h => List.noConfusion h)
  | _ :: _, [] => .isFalse (fun h => List.noConfusion h)
  | (k1, v1) :: xs, (k2, v2) :: ys =>
    if h1 : k1 = k2 then
      match jsonDecEq v1 v2, jsonDecEqO xs ys with
      | .isTrue h2, .isTrue h3 => .isTrue (by rw [h1, h2, h3])
      | .isFalse h2, _ => .isFalse (fun hh => h2 (by cases hh; rfl))
      | _, .isFalse h3 => .isFalse (fun hh => h3 (by cases hh; rfl))
    else .isFalse (fun hh => h1 (by cases hh; rfl))

end

instance : DecidableEq Json := jsonDecEq

/-- A raw record: one JSON object, as the association list of its fields. -/
abbrev JRec := List (String × Json)

/-- A DataFrame cell. `none` models pandas `NaN`: the value a row receives in
a column whose key was absent from the row's source object. -/
abbrev Cell := Option Json

/-- One DataFrame row, aligned positionally with the frame's column list. -/
abbrev Row := List Cell

/-- A pandas DataFrame: column labels plus rows of cells. Rows are identified
by their position, mirroring the frame's integer index labels. -/
structure DF where
  cols : List String
  rows : List Row
deriving Repr, DecidableEq

/-- Python truthiness `bool(v)` of a JSON-derived value: empty string, zero,
`False`, `None`, empty list and empty dict are falsy. -/
def jsonTruthy : Json → Bool
  | .str s => s != ""
  | .num n => n != 0
  | .bool b => b
  | .null => false
  | .arr l => !l.isEmpty
  | .obj o => !o.isEmpty

/-- Truthiness of a cell under `Series.astype(bool)`. pandas stores a missing
field as the float `NaN`, and `bool(nan)` is `True` (a non-zero float), so a
missing cell is truthy. -/
def cellTruthy : Cell → Bool
  | none => true
  | some v => jsonTruthy v

/-- Column labels of `pd.DataFrame(records)`: the union of the records' keys
in order of first appearance. -/
def collectCols (recs : List JRec) : List String :=
  recs.foldl
    (fun acc r =>
      r.foldl (fun acc2 kv => if kv.1 ∈ acc2 then acc2 else acc2 ++ [kv.1]) acc)
    []

/-- `pd.DataFrame(records)` for a list of objects: one row per record, one
column per key seen anywhere, `NaN` (`none`) where a row lacks the key. -/
def dfFromRecords (recs : List JRec) : DF :=
  let cols := collectCols recs
  { cols := cols, rows := recs.map (fun r => cols.map (fun c => r.lookup c)) }

/-- Cell of `row` in the column labelled `c` (first occurrence), matching
pandas label lookup. Returns `none` both for a `NaN` cell and for a missing
column; every use site guards or guarantees the column's presence. -/
def getCell (cols : List String) (row : Row) (c : String) : Cell :=
  ((cols.zip row).lookup c).join

/-- The rename step `df.rename(columns=\x7bold: newLbl\x7d)`: relabels the
column, leaving cells untouched. -/
def renameCol (old newLbl : String) (df : DF) : DF :=
  { df with cols := df.cols.map (fun c => if c == old then newLbl else c) }

/-- One iteration of the force-create loop: `if col not in df.columns:
df[col] = ""` appends the column with every cell the empty string. -/
def forceCol (df : DF) (c : String) : DF :=
  if c ∈ df.cols then df
  else { cols := df.cols ++ [c], rows := df.rows.map (fun r => r ++ [some (Json.str "")]) }

/-- The canonical column set forced by `load_data`. -/
def expectedCols : List String := ["Category", "Activity", "Type", "Vibe", "Status", "Link"]

/-- The row drop `df = df[df["Category"].astype(bool)]`, guarded as in the
source by `if "Category" in df.columns`. -/
def dropFalsyCategory (df : DF) : DF :=
  if "Category" ∈ df.cols then
    { df with rows := df.rows.filter (fun r => cellTruthy (getCell df.cols r "Category")) }
  else df

/-- The empty table with the canonical columns, as returned by the `except`
branch of `load_data`. -/
def emptyShapedDF : DF := ⟨expectedCols, []⟩

/-- Field list of a list element handed to `pd.DataFrame`. Claims only
involve arrays of objects; a non-object element (for which pandas would build
positional columns) contributes no keys here. -/
def asObj : Json → JRec
  | .obj o => o
  | _ => []

/-- The migration block of `load_data`: rename `Filter_1` to `Type` when
present, then `Filter_2` to `Vibe` when present. -/
def migrateCols (df : DF) : DF :=
  let df := if "Filter_1" ∈ df.cols then renameCol "Filter_1" "Type" df else df
  if "Filter_2" ∈ df.cols then renameCol "Filter_2" "Vibe" df else df

/-- The tabulation tail of `load_data`, starting from the record list:
`pd.DataFrame`, the two column renames, the forced canonical columns, and
the falsy-`Category` row drop. -/
def normalizeRecs (recs : List JRec) : DF :=
  dropFalsyCategory (expectedCols.foldl forceCol (migrateCols (dfFromRecords recs)))

/-- The body of `load_data` on a parsed top-level object:
`records = data.get("record", [])`, then `if isinstance(records, dict):
records = []`, then tabulation. A scalar `record` value makes
`pd.DataFrame` raise, which the `except` turns into the empty shaped table;
`pd.DataFrame(None)` is the empty frame. -/
def normalizeDoc (fields : List (String × Json)) : DF :=
  match (fields.lookup "record").getD (Json.arr []) with
  | .arr l => normalizeRecs (l.map asObj)
  | .obj _ => normalizeRecs []
  | .null => normalizeRecs []
  | _ => emptyShapedDF

/-- `load_data`: a fetch/parse failure, or a top-level value without `.get`
(anything but a dict), is caught by the `except` and yields the empty shaped
table; a dict flows into `normalizeDoc`. -/
def loadData (fetched : Except String Json) : DF :=
  match fetched with
  | .error _ => emptyShapedDF
  | .ok (.obj fields) => normalizeDoc fields
  | .ok _ => emptyShapedDF

/-- Pandas cell equality against a string, as in `df["Category"] == name`:
`NaN` and non-string cells compare unequal to any string. -/
def cellEqStr (cell : Cell) (s : String) : Bool :=
  match cell with
  | some (.str v) => v == s
  | _ => false

/-- Pandas `Series.isin(vals)` on one cell for a list of strings: `NaN` and
non-string cells are in no string list. -/
def cellIsin (cell : Cell) (vals : List String) : Bool :=
  match cell with
  | some (.str v) => vals.contains v
  | _ => false

/-- The conjunction `(df["Category"] == category_name) & (df["Status"] ==
target_status)` of `render_tab`, on one row. -/
def rowMatches (cols : List String) (cat status : String) (r : Row) : Bool :=
  cellEqStr (getCell cols r "Category") cat && cellEqStr (getCell cols r "Status") status

/-- The filtering pipeline of `render_tab`: the category/status boolean mask,
then `subset[subset["Type"].isin(f1_val)]` when the first multiselect is
non-empty, then the same for `Vibe`. Rows keep their original index labels
through boolean masking, modelled by carrying each row's position in the
loaded table. -/
def tabFilter (df : DF) (cat status : String) (a1 a2 : List String) : List (Nat × Row) :=
  let s := df.rows.enum.filter (fun x => rowMatches df.cols cat status x.2)
  let s := if a1.isEmpty then s else s.filter (fun x => cellIsin (getCell df.cols x.2 "Type") a1)
  if a2.isEmpty then s else s.filter (fun x => cellIsin (getCell df.cols x.2 "Vibe") a2)

/-- Modelled from the spec's description of `filter` (§4.4, used only to be
compared against `tabFilter`): an exact-match conjunction on `Category` and
`Status`, plus an is-one-of restriction per attribute that an empty selection
set disables. -/
def specFilterPred (cols : List String) (cat status : String) (a1 a2 : List String)
    (r : Row) : Bool :=
  cellEqStr (getCell cols r "Category") cat && cellEqStr (getCell cols r "Status") status
    && (a1.isEmpty || cellIsin (getCell cols r "Type") a1)
    && (a2.isEmpty || cellIsin (getCell cols r "Vibe") a2)

/-- One row of `df.update(edited_df)`: over the shared columns (here all, in
positional alignment), a non-NA cell of the edited row overwrites, while a
`NaN` cell of the edited row leaves the original cell in place. -/
def mergeRow : Row → Row → Row
  | [], _ => []
  | c :: cs, [] => c :: cs
  | c :: cs, e :: es => (match e with | none => c | some v => some v) :: mergeRow cs es

/-- `df.update(edited_df)`: rows whose index label matches an edited row are
merged cell-wise; all other rows are untouched. -/
def updateRows (rows : List Row) (edited : List (Nat × Row)) : List Row :=
  rows.enum.map (fun x =>
    match edited.lookup x.1 with
    | none => x.2
    | some er => mergeRow x.2 er)

/-- The reconciliation step of `render_tab`: `if not subset.equals(edited_df):
df.update(edited_df)`. Returns the (possibly updated) full table and the
changed flag; `save_data` is invoked by the source exactly when the flag is
true. -/
def reconcile (df : DF) (orig edited : List (Nat × Row)) : DF × Bool :=
  if orig = edited then (df, false)
  else ({ df with rows := updateRows df.rows edited }, true)

/-- The random pick `subset.sample(1).iloc[0]`, with the sampler's random
draw modelled as an oracle index `k` reduced modulo the subset size; on an
empty subset `sample(1)` raises, modelled as the error case. -/
def pickRandom (rows : List Row) (k : Nat) : Except String Row :=
  match rows with
  | [] => .error "empty selection"
  | r :: rs => .ok ((r :: rs).get ⟨k % (r :: rs).length, Nat.mod_lt _ (Nat.succ_pos _)⟩)

/-- The caller guard around the pick: `if not subset.empty:` — no pick is
attempted on an empty subset. -/
def renderPick (rows : List Row) (k : Nat) : Option (Except String Row) :=
  if rows.isEmpty then none else some (pickRandom rows k)

/-- `create_google_sheet_tab`: on a 200 response, `data.get("url", "")`
from the parsed body; on any other status the `Sheet Error` branch returns
`""`; a transport or parse exception is caught and returns `""` (a non-dict
body makes `.get` raise, landing in the same branch). -/
def provisionTab (resp : Except String (Nat × Json)) : Json :=
  match resp with
  | .error _ => .str ""
  | .ok (code, body) =>
    if code == 200 then
      match body with
      | .obj o => (o.lookup "url").getD (.str "")
      | _ => .str ""
    else .str ""

/-- The `new_row` dict built by the "Add to List" handler. -/
def mkNewRow (cat act f1 f2 : String) (link : Json) : JRec :=
  [("Category", .str cat), ("Activity", .str act), ("Type", .str f1),
   ("Vibe", .str f2), ("Status", .str "To Do"), ("Link", link)]

/-- `pd.concat([df, pd.DataFrame([new_row])], ignore_index=True)`: columns
are the union (frame's first, then the new row's unseen keys), old rows get
`NaN` in the added columns, and the new row is appended. -/
def appendRow (df : DF) (nr : JRec) : DF :=
  let newKeys := (nr.map Prod.fst).filter (fun k => decide (k ∉ df.cols))
  let cols := df.cols ++ newKeys
  { cols := cols,
    rows := df.rows.map (fun r => r ++ newKeys.map (fun _ => (none : Cell)))
      ++ [cols.map (fun c => nr.lookup c)] }

/-- The "Add to List" handler on a non-empty activity name: reload, provision
a link only for the `Vacation` category, append the new row, save. The
returned flag is whether `save_data` succeeded, which is exactly when the
handler reports success (`st.success`). -/
def addToList (fetched : Except String Json) (cat act f1 f2 : String)
    (provResp : Except String (Nat × Json)) (saveOk : Bool) : DF × Bool :=
  let df := loadData fetched
  let link := if cat == "Vacation" then provisionTab provResp else Json.str ""
  (appendRow df (mkNewRow cat act f1 f2 link), saveOk)

/-- Shorthand for a string cell of a concrete table. -/
def sCell (s : String) : Cell := some (.str s)

/-- A one-record inner array shared by the wrapping examples. -/
def gamingArr : Json := .arr [.obj [("Category", .str "Gaming")]]

/-- The double-wrapped document of testable property 1. -/
def doubleWrapDoc : Json := .obj [("record", .obj [("record", gamingArr)])]

/-- The singly wrapped document with the same inner array. -/
def singleWrapDoc : Json := .obj [("record", gamingArr)]

/-- A document whose second record lacks the `Category` key. -/
def missingCategoryDoc : Json := .obj [("record", .arr
  [.obj [("Category", .str "Gaming"), ("Activity", .str "a")],
   .obj [("Activity", .str "b")]])]

/-- A concrete loaded table with `Gaming`/`To Do` rows at indices 0 and 2
(index 2 carrying `Category="Gaming", Status="To Do"` as in testable
property 5). -/
def demoTable : DF := ⟨expectedCols,
  [[sCell "Gaming", sCell "Go", sCell "Puzzle", sCell "Single", sCell "To Do", sCell ""],
   [sCell "Gaming", sCell "Chess", sCell "RPG", sCell "Versus", sCell "Completed", sCell ""],
   [sCell "Gaming", sCell "It Takes Two", sCell "RPG", sCell "Co-op", sCell "To Do", sCell ""],
   [sCell "Movies", sCell "Dune", sCell "Sci-Fi", sCell "Movies", sCell "To Do", sCell ""]]⟩

/-- The `Gaming`/`To Do` filtered subset of `demoTable` after the user edits
exactly one cell: the `Status` of the row at index 2 becomes `Completed`. -/
def demoEdited : List (Nat × Row) :=
  [(0, [sCell "Gaming", sCell "Go", sCell "Puzzle", sCell "Single", sCell "To Do", sCell ""]),
   (2, [sCell "Gaming", sCell "It Takes Two", sCell "RPG", sCell "Co-op", sCell "Completed",
        sCell ""])]

/-- `demoTable` with exactly the `Status` cell of index 2 changed. -/
def demoMerged : DF := ⟨expectedCols,
  [[sCell "Gaming", sCell "Go", sCell "Puzzle", sCell "Single", sCell "To Do", sCell ""],
   [sCell "Gaming", sCell "Chess", sCell "RPG", sCell "Versus", sCell "Completed", sCell ""],
   [sCell "Gaming", sCell "It Takes Two", sCell "RPG", sCell "Co-op", sCell "Completed", sCell ""],
   [sCell "Movies", sCell "Dune", sCell "Sci-Fi", sCell "Movies", sCell "To Do", sCell ""]]⟩

/-- A legacy document carrying `Filter_1`/`Filter_2` instead of
`Type`/`Vibe`, with the attribute values left generic. -/
def legacyDoc (v1 v2 : String) : Json := .obj [("record", .arr [.obj
  [("Category", .str "Gaming"), ("Activity", .str "It Takes Two"),
   ("Filter_1", .str v1), ("Filter_2", .str v2), ("Status", .str "To Do")]])]

end DuoList

namespace DuoList

theorem cols_dropFalsyCategory (df : DF) : (dropFalsyCategory df).cols = df.cols := by
  unfold dropFalsyCategory
  split <;> rfl

theorem mem_cols_forceCol (df : DF) (c x : String) (h : x ∈ df.cols) :
    x ∈ (forceCol df c).cols := by
  unfold forceCol
  split
  · exact h
  · exact List.mem_append_left _ h

theorem mem_cols_forceCol_self (df : DF) (c : String) : c ∈ (forceCol df c).cols := by
  unfold forceCol
  split
  · assumption
  · exact List.mem_append_right _ (List.mem_singleton.mpr rfl)

theorem mem_cols_foldl_forceCol (l : List String) (df : DF) (c : String)
    (h : c ∈ l ∨ c ∈ df.cols) : c ∈ (l.foldl forceCol df).cols := by
  induction l generalizing df with
  | nil => simpa using h.resolve_left (by simp)
  | cons a l ih =>
    rw [List.foldl_cons]
    rcases h with h | h
    · rcases List.mem_cons.mp h with rfl | h
      · exact ih _ (Or.inr (mem_cols_forceCol_self df c))
      · exact ih _ (Or.inl h)
    · exact ih _ (Or.inr (mem_cols_forceCol df a c h))

theorem expected_mem_loadData (fetched : Except String Json) (c : String)
    (h : c ∈ expectedCols) : c ∈ (loadData fetched).cols := by
  have hrecs : ∀ recs : List JRec, c ∈ (normalizeRecs recs).cols := by
    intro recs
    unfold normalizeRecs
    rw [cols_dropFalsyCategory]
    exact mem_cols_foldl_forceCol _ _ _ (Or.inl h)
  cases fetched with
  | error e => exact h
  | ok j =>
    cases j with
    | obj fields =>
      show c ∈ (normalizeDoc fields).cols
      unfold normalizeDoc
      split
      · exact hrecs _
      · exact hrecs _
      · exact hrecs _
      · exact h
    | str s => exact h
    | num n => exact h
    | bool b => exact h
    | null => exact h
    | arr l => exact h

/-- C1 (counterexample): normalizing the double-wrapped document
`{"record": {"record": [{"Category": "Gaming"}]}}` does not yield the same
table as normalizing `{"record": [{"Category": "Gaming"}]}` — the source
discards every dict found at `record`, so the first document loads as the
empty table while the second loads one row. -/
theorem c1_counterexample : loadData (.ok doubleWrapDoc) ≠ loadData (.ok singleWrapDoc) := by
  decide

/-- C1 (amended): when the value at key `record` is an object rather than an
array, `load_data` substitutes the empty collection unconditionally — it
neither unwraps a nested `record` key nor treats a single record as a
one-element collection — so the result is always the empty canonical table. -/
theorem c1_dict_record_discarded (o rest : List (String × Json)) :
    loadData (.ok (Json.obj (("record", Json.obj o) :: rest))) = emptyShapedDF := rfl

/-- C3: reconciling a filtered subset that was not edited returns the full
table unchanged with `changed = false` (and the source calls `save_data`
only under the `changed` guard, so no write-back is attempted). -/
theorem c3_unchanged_subset_no_write (df : DF) (cat status : String) (a1 a2 : List String) :
    reconcile df (tabFilter df cat status a1 a2) (tabFilter df cat status a1 a2)
      = (df, false) := by
  unfold reconcile
  rw [if_pos rfl]

/-- C5: a legacy document with `Filter_1`/`Filter_2` columns normalizes to a
table carrying those values under `Type`/`Vibe`, with no `Filter_1` or
`Filter_2` column left and no blank duplicate `Type`/`Vibe` column — the
renames run before the column-existence check. -/
theorem c5_legacy_columns_migrated :
    loadData (.ok (legacyDoc "RPG" "Co-op")) =
      ⟨expectedCols,
       [[sCell "Gaming", sCell "It Takes Two", sCell "RPG", sCell "Co-op", sCell "To Do",
         sCell ""]]⟩
    ∧ "Filter_1" ∉ (loadData (.ok (legacyDoc "RPG" "Co-op"))).cols
    ∧ "Filter_2" ∉ (loadData (.ok (legacyDoc "RPG" "Co-op"))).cols := by
  refine ⟨by decide, by decide, by decide⟩

/-- C7: `load_data` never propagates an exception — a fetch/parse failure and
the documents `{}` and `{"record": []}` all yield the empty table with
exactly the canonical columns, and every input whatsoever yields a table
whose columns include the canonical set. -/
theorem c7_load_always_shaped :
    (∀ e, loadData (.error e) = emptyShapedDF)
    ∧ loadData (.ok (Json.obj [])) = emptyShapedDF
    ∧ loadData (.ok (Json.obj [("record", Json.arr [])])) = emptyShapedDF
    ∧ ∀ fetched, expectedCols ⊆ (loadData fetched).cols := by
  refine ⟨fun e => rfl, rfl, rfl, fun fetched c hc => expected_mem_loadData fetched c hc⟩

/-- C7 witness: the canonical-columns guarantee applied to a concrete failed
fetch. -/
theorem c7_witness : "Category" ∈ (loadData (.error "network down")).cols :=
  c7_load_always_shaped.2.2.2 (.error "network down") (by decide)

theorem loadData_eq_normalizeRecs (fetched : Except String Json) :
    ∃ recs, loadData fetched = normalizeRecs recs := by
  have hempty : emptyShapedDF = normalizeRecs [] := by decide
  cases fetched with
  | error e => exact ⟨[], hempty⟩
  | ok j =>
    cases j with
    | obj fields =>
      show ∃ recs, normalizeDoc fields = normalizeRecs recs
      unfold normalizeDoc
      split
      · exact ⟨_, rfl⟩
      · exact ⟨[], rfl⟩
      · exact ⟨[], rfl⟩
      · exact ⟨[], hempty⟩
    | str s => exact ⟨[], hempty⟩
    | num n => exact ⟨[], hempty⟩
    | bool b => exact ⟨[], hempty⟩
    | null => exact ⟨[], hempty⟩
    | arr l => exact ⟨[], hempty⟩

theorem dropFalsy_rows_truthy (df : DF) (hmem : "Category" ∈ df.cols) (r : Row)
    (h : r ∈ (dropFalsyCategory df).rows) :
    cellTruthy (getCell (dropFalsyCategory df).cols r "Category") = true := by
  unfold dropFalsyCategory at h ⊢
  rw [if_pos hmem] at h ⊢
  exact (List.mem_filter.mp h).2

/-- C6 (counterexample): loading a document whose second record lacks the
`Category` key keeps that record — its `Category` cell is `NaN`, which is
truthy under `astype(bool)` — contradicting the claim that rows with an
absent `Category` are excluded. -/
theorem c6_counterexample :
    ∃ r ∈ (loadData (.ok missingCategoryDoc)).rows,
      getCell (loadData (.ok missingCategoryDoc)).cols r "Category" = none := by
  decide

/-- C6 (amended): every row of a loaded table has a truthy `Category` cell —
rows whose `Category` is an empty string or another falsy value are dropped —
but a row whose `Category` key is absent gets the truthy `NaN` cell, so such
rows are retained, not excluded. -/
theorem c6_category_cells_truthy (fetched : Except String Json) (r : Row)
    (h : r ∈ (loadData fetched).rows) :
    cellTruthy (getCell (loadData fetched).cols r "Category") = true := by
  obtain ⟨recs, hrecs⟩ := loadData_eq_normalizeRecs fetched
  rw [hrecs] at h ⊢
  have hmem : "Category" ∈ (expectedCols.foldl forceCol (migrateCols (dfFromRecords recs))).cols :=
    mem_cols_foldl_forceCol _ _ _ (Or.inl (by decide))
  exact dropFalsy_rows_truthy _ hmem r h

/-- C6 witness: the amended guarantee applied to the one loaded row of a
concrete document. -/
theorem c6_witness :
    cellTruthy (getCell (loadData (.ok singleWrapDoc)).cols
      [sCell "Gaming", sCell "", sCell "", sCell "", sCell "", sCell ""] "Category") = true :=
  c6_category_cells_truthy (.ok singleWrapDoc) _ (by decide)

theorem updateRows_getElem? (rows : List Row) (edited : List (Nat × Row)) (i : Nat) :
    (updateRows rows edited)[i]? = rows[i]?.map (fun r =>
      match edited.lookup i with | none => r | some er => mergeRow r er) := by
  unfold updateRows
  rw [List.getElem?_map, List.enum_eq_enumFrom, List.getElem?_enumFrom]
  cases rows[i]? with
  | none => rfl
  | some r => simp

/-- C2: reconciliation is a positional merge — when the edited subset
matches no row index `i`, row `i` of the merged table is exactly row `i` of
the full table; when it matches with edited row `er` (and some cell differs
so the update runs), row `i` becomes the cell-wise merge with `er`; and on
the concrete table with `Category="Gaming", Status="To Do"` at index 2,
editing only that row's `Status` to `"Completed"` in the filtered subset
reconciles to the table identical except that one cell, with
`changed = true`. -/
theorem c2_reconcile_positional_merge (df : DF) (orig edited : List (Nat × Row)) :
    (∀ i, edited.lookup i = none →
      (reconcile df orig edited).1.rows[i]? = df.rows[i]?)
    ∧ (orig ≠ edited → ∀ i er, edited.lookup i = some er →
      (reconcile df orig edited).1.rows[i]? = df.rows[i]?.map (fun r => mergeRow r er))
    ∧ reconcile demoTable (tabFilter demoTable "Gaming" "To Do" [] []) demoEdited
        = (demoMerged, true) := by
  refine ⟨?_, ?_, by decide⟩
  · intro i hi
    unfold reconcile
    split
    · rfl
    · show (updateRows df.rows edited)[i]? = df.rows[i]?
      rw [updateRows_getElem?, hi]
      cases df.rows[i]? <;> rfl
  · intro hne i er hi
    unfold reconcile
    rw [if_neg hne]
    show (updateRows df.rows edited)[i]? = _
    rw [updateRows_getElem?, hi]

/-- C2 witness: the frame part applied at a concrete index absent from the
edited subset. -/
theorem c2_witness :
    (reconcile demoTable (tabFilter demoTable "Gaming" "To Do" [] []) demoEdited).1.rows[1]?
      = demoTable.rows[1]? :=
  (c2_reconcile_positional_merge demoTable _ demoEdited).1 1 (by decide)

/-- C8: under the non-empty precondition `pick_random` returns a member of
the subset; a one-row subset always yields that row; the empty subset raises
the empty-selection error instead of returning a value; and through the
caller's emptiness guard every attempted pick succeeds with a member row. -/
theorem c8_pick_random :
    (∀ (rows : List Row) (k : Nat), rows ≠ [] → ∃ r, pickRandom rows k = .ok r ∧ r ∈ rows)
    ∧ (∀ (r : Row) (k : Nat), pickRandom [r] k = .ok r)
    ∧ (∀ k : Nat, pickRandom [] k = .error "empty selection")
    ∧ ∀ (rows : List Row) (k : Nat) (res : Except String Row),
        renderPick rows k = some res → ∃ r, res = .ok r ∧ r ∈ rows := by
  have h1 : ∀ (rows : List Row) (k : Nat), rows ≠ [] →
      ∃ r, pickRandom rows k = .ok r ∧ r ∈ rows := by
    intro rows k hne
    cases rows with
    | nil => exact absurd rfl hne
    | cons r rs => exact ⟨_, rfl, List.get_mem _ _ _⟩
  refine ⟨h1, ?_, fun k => rfl, ?_⟩
  · intro r k
    simp [pickRandom, Nat.mod_one]
  · intro rows k res hres
    unfold renderPick at hres
    split at hres
    · exact absurd hres (by simp)
    · next hne =>
      injection hres with hres
      subst hres
      exact h1 rows k (by simpa using hne)

/-- C8 witness: the non-empty precondition discharged on a concrete one-row
subset. -/
theorem c8_witness :
    ∃ r, pickRandom [[sCell "Gaming"]] 7 = .ok r ∧ r ∈ [[sCell "Gaming"]] :=
  c8_pick_random.1 [[sCell "Gaming"]] 7 (by decide)

theorem enumFrom_filter_map_snd {α : Type} (p : α → Bool) (n : Nat) (l : List α) :
    ((List.enumFrom n l).filter (fun x => p x.2)).map Prod.snd = l.filter p := by
  induction l generalizing n with
  | nil => rfl
  | cons a l ih =>
    rw [List.enumFrom_cons]
    by_cases h : p a <;> simp [List.filter_cons, h, ih]

theorem filter_pairs_map_snd {α : Type} (q : α → Bool) (s : List (Nat × α)) :
    (s.filter (fun x => q x.2)).map Prod.snd = (s.map Prod.snd).filter q := by
  induction s with
  | nil => rfl
  | cons a s ih => by_cases h : q a.2 <;> simp [List.filter_cons, h, ih]

theorem enum_filter_map_snd {α : Type} (p : α → Bool) (l : List α) :
    ((l.enum).filter (fun x => p x.2)).map Prod.snd = l.filter p :=
  enumFrom_filter_map_snd p 0 l

/-- C4: the filtering pipeline of `render_tab` returns exactly the rows of
the table whose `Category` and `Status` cells equal the requested values,
restricted per attribute to membership in the supplied value set when that
set is non-empty; an empty set imposes no restriction, and the result is a
single order-preserving filter of the table's rows with no extras. -/
theorem c4_filter_conjunction (df : DF) (cat status : String) (a1 a2 : List String) :
    (tabFilter df cat status a1 a2).map Prod.snd
      = df.rows.filter (specFilterPred df.cols cat status a1 a2) := by
  unfold tabFilter
  cases a1 with
  | nil =>
    cases a2 with
    | nil =>
      show ((df.rows.enum.filter (fun x => rowMatches df.cols cat status x.2)).map Prod.snd)
        = _
      rw [enum_filter_map_snd]
      refine List.filter_congr ?_
      intro r hr
      simp [specFilterPred, rowMatches]
    | cons b bs =>
      show (((df.rows.enum.filter (fun x => rowMatches df.cols cat status x.2)).filter
          (fun x => cellIsin (getCell df.cols x.2 "Vibe") (b :: bs))).map Prod.snd) = _
      rw [filter_pairs_map_snd (fun r => cellIsin (getCell df.cols r "Vibe") (b :: bs)),
        enum_filter_map_snd, List.filter_filter]
      refine List.filter_congr ?_
      intro r hr
      simp only [specFilterPred, rowMatches, List.isEmpty_nil, List.isEmpty_cons,
        Bool.true_or, Bool.false_or, Bool.and_true]
      exact Bool.and_comm _ _
  | cons v vs =>
    cases a2 with
    | nil =>
      show (((df.rows.enum.filter (fun x => rowMatches df.cols cat status x.2)).filter
          (fun x => cellIsin (getCell df.cols x.2 "Type") (v :: vs))).map Prod.snd) = _
      rw [filter_pairs_map_snd (fun r => cellIsin (getCell df.cols r "Type") (v :: vs)),
        enum_filter_map_snd, List.filter_filter]
      refine List.filter_congr ?_
      intro r hr
      simp only [specFilterPred, rowMatches, List.isEmpty_nil, List.isEmpty_cons,
        Bool.true_or, Bool.false_or, Bool.and_true]
      exact Bool.and_comm _ _
    | cons b bs =>
      show ((((df.rows.enum.filter (fun x => rowMatches df.cols cat status x.2)).filter
          (fun x => cellIsin (getCell df.cols x.2 "Type") (v :: vs))).filter
          (fun x => cellIsin (getCell df.cols x.2 "Vibe") (b :: bs))).map Prod.snd) = _
      rw [filter_pairs_map_snd (fun r => cellIsin (getCell df.cols r "Vibe") (b :: bs)),
        filter_pairs_map_snd (fun r => cellIsin (getCell df.cols r "Type") (v :: vs)),
        enum_filter_map_snd, List.filter_filter, List.filter_filter]
      refine List.filter_congr ?_
      intro r hr
      simp only [specFilterPred, rowMatches, List.isEmpty_cons, Bool.false_or]
      cases cellIsin (getCell df.cols r "Vibe") (b :: bs) <;>
        cases cellIsin (getCell df.cols r "Type") (v :: vs) <;>
        cases cellEqStr (getCell df.cols r "Category") cat <;>
        cases cellEqStr (getCell df.cols r "Status") status <;> rfl

theorem lookup_zip_map (l : List String) (f : String → Cell) (c : String) :
    (l.zip (l.map f)).lookup c = if c ∈ l then some (f c) else none := by
  induction l with
  | nil => rfl
  | cons a l ih =>
    show List.lookup c ((a, f a) :: l.zip (l.map f)) = _
    rw [List.lookup_cons]
    by_cases h : c = a
    · subst h
      simp
    · have hb : (c == a) = false := beq_eq_false_iff_ne.mpr h
      simp [hb, ih, List.mem_cons, h]

theorem getCell_map_self (cols : List String) (f : String → Cell) (c : String) :
    getCell cols (cols.map f) c = if c ∈ cols then f c else none := by
  unfold getCell
  rw [lookup_zip_map]
  split <;> rfl

theorem appendRow_last (df : DF) (nr : JRec) :
    (appendRow df nr).rows.getLast?
      = some ((appendRow df nr).cols.map (fun c => nr.lookup c)) := by
  show (_ ++ [(appendRow df nr).cols.map (fun c => nr.lookup c)]).getLast? = _
  rw [List.getLast?_concat]

theorem mem_appendRow_cols (df : DF) (nr : JRec) (k : String) (h : k ∈ nr.map Prod.fst) :
    k ∈ (appendRow df nr).cols := by
  show k ∈ df.cols ++ (nr.map Prod.fst).filter (fun x => decide (x ∉ df.cols))
  by_cases hk : k ∈ df.cols
  · exact List.mem_append_left _ hk
  · refine List.mem_append_right _ ?_
    rw [List.mem_filter]
    exact ⟨h, by simp [hk]⟩

theorem addToList_last_cells (fetched : Except String Json) (cat act f1 f2 : String)
    (provResp : Except String (Nat × Json)) (saveOk : Bool) :
    ∃ r, (addToList fetched cat act f1 f2 provResp saveOk).1.rows.getLast? = some r
      ∧ getCell (addToList fetched cat act f1 f2 provResp saveOk).1.cols r "Status"
          = some (.str "To Do")
      ∧ getCell (addToList fetched cat act f1 f2 provResp saveOk).1.cols r "Link"
          = some (if cat = "Vacation" then provisionTab provResp else .str "") := by
  have hcols : (addToList fetched cat act f1 f2 provResp saveOk).1.cols
      = (appendRow (loadData fetched)
          (mkNewRow cat act f1 f2
            (if cat == "Vacation" then provisionTab provResp else Json.str ""))).cols := rfl
  refine ⟨_, appendRow_last (loadData fetched)
    (mkNewRow cat act f1 f2 (if cat == "Vacation" then provisionTab provResp else Json.str "")),
    ?_, ?_⟩
  · rw [hcols, getCell_map_self, if_pos (mem_appendRow_cols _ _ _ (by simp [mkNewRow]))]
    rfl
  · rw [hcols, getCell_map_self, if_pos (mem_appendRow_cols _ _ _ (by simp [mkNewRow]))]
    show some (if cat == "Vacation" then provisionTab provResp else Json.str "") = _
    by_cases hc : cat = "Vacation" <;> simp [hc]

/-- C9: `create_google_sheet_tab` returns the empty string on a transport
failure and on any non-200 response, and creating a `Vacation` record with a
failing provisioner still appends a row whose `Link` is the empty string,
with creation reported successful whenever the save succeeds — a
provisioning failure never blocks record creation. -/
theorem c9_provisioning_never_blocks :
    (∀ e, provisionTab (.error e) = .str "")
    ∧ (∀ (code : Nat) (body : Json), code ≠ 200 → provisionTab (.ok (code, body)) = .str "")
    ∧ ∀ fetched act f1 f2 e,
        (addToList fetched "Vacation" act f1 f2 (.error e) true).2 = true
        ∧ ∃ r, (addToList fetched "Vacation" act f1 f2 (.error e) true).1.rows.getLast?
              = some r
            ∧ getCell (addToList fetched "Vacation" act f1 f2 (.error e) true).1.cols r "Link"
              = some (.str "") := by
  refine ⟨fun e => rfl, ?_, ?_⟩
  · intro code body h
    have hred : provisionTab (.ok (code, body)) =
        if code == 200 then
          (match body with
           | Json.obj o => (List.lookup "url" o).getD (Json.str "")
           | _ => Json.str "")
        else Json.str "" := rfl
    rw [hred, if_neg (by simp [h])]
  · intro fetched act f1 f2 e
    refine ⟨rfl, ?_⟩
    obtain ⟨r, hlast, hstatus, hlink⟩ :=
      addToList_last_cells fetched "Vacation" act f1 f2 (.error e) true
    exact ⟨r, hlast, by simpa using hlink⟩

/-- C9 witness: the non-200 branch applied to a concrete 500 response. -/
theorem c9_witness : provisionTab (.ok (500, Json.obj [("url", .str "http://x")])) = .str "" :=
  c9_provisioning_never_blocks.2.1 500 (Json.obj [("url", .str "http://x")]) (by decide)

/-- C10: every record appended through the creation flow has
`Status = "To Do"`, and its `Link` is the provisioner's result exactly when
the category is `Vacation` and the empty string otherwise. -/
theorem c10_creation_defaults (fetched : Except String Json) (cat act f1 f2 : String)
    (provResp : Except String (Nat × Json)) (saveOk : Bool) :
    ∃ r, (addToList fetched cat act f1 f2 provResp saveOk).1.rows.getLast? = some r
      ∧ getCell (addToList fetched cat act f1 f2 provResp saveOk).1.cols r "Status"
          = some (.str "To Do")
      ∧ getCell (addToList fetched cat act f1 f2 provResp saveOk).1.cols r "Link"
          = some (if cat = "Vacation" then provisionTab provResp else .str "") :=
  addToList_last_cells fetched cat act f1 f2 provResp saveOk

end DuoList
